import Mathlib

/-!
Shallow embedding of the nanokvm-control-api actuation and state code
(`src/control.rs`, `src/config.rs`), together with proofs of the spec claims.

Modelling conventions:
* Rust `u8` values (ids, pins, levels) are `Nat`; the parser enforces the
  `≤ 255` bound exactly where `u8::from_str` does.
* `HashMap<u8, u8>` is an association list with `HashMap::insert` semantics
  (replace-in-place when the key exists, append otherwise).
* The PCF8574 expander is modelled by its externally visible effect: each
  `set_high`/`set_low` call is a `write pin level` event.  Whether a given
  bus write succeeds is supplied by an oracle `dev : List Bool`, consumed one
  entry per attempted write (`true` = `Ok`, exhausted list = success).
* `serde_json` round-tripping is an external library; the persisted file is
  modelled as the decoded `State` value (`Option State`, `none` = absent).
* Millisecond delays are the `u64` values the code passes to
  `thread::sleep` (the `f32` config value after the `as u64` cast).
* The `Mutex` on the device and on the state is modelled by treating each
  lock-protected critical section as atomic; for the concurrency claim a
  dedicated small-step interleaving semantics is given below.
-/

namespace NanoKVM

/-- `pub const VALID_IDS: [u8; 4] = [1, 2, 3, 4];` -/
def VALID_IDS : List Nat := [1, 2, 3, 4]

/-- `config.rs`: `InputPinConfig { pin: u8, pushed_state: u8 }`. -/
structure InputPinConfig where
  pin : Nat
  pushed_state : Nat
deriving DecidableEq, Repr

/-- Modelled from the spec: `crate::config::HardPowerPinConfig` is used by
`handle_power_hard` (fields `pin` and `on_state`) but its declaration is not
among the provided sources; per the spec a pin config carries the physical
pin (0..7) and the asserted ("on") level. -/
structure HardPowerPinConfig where
  pin : Nat
  on_state : Nat
deriving DecidableEq, Repr

/-- `HashMap::get` on an association-list model. -/
def hmGet (m : List (Nat × Nat)) (k : Nat) : Option Nat :=
  (m.find? (fun p => p.1 = k)).map (fun p => p.2)

/-- `HashMap::insert`: replace the value in place when the key is present,
append otherwise. -/
def hmInsert (m : List (Nat × Nat)) (k v : Nat) : List (Nat × Nat) :=
  if m.any (fun p => p.1 = k) then
    m.map (fun p => if p.1 = k then (k, v) else p)
  else
    m ++ [(k, v)]

/-- `get_power_state()`: 0 (off) for every valid id. -/
def get_power_state : List (Nat × Nat) :=
  VALID_IDS.map (fun id => (id, 0))

/-- `State { current_input: Option<u8>, hard_power_state: HashMap<u8, u8> }`. -/
structure State where
  current_input : Option Nat
  hard_power_state : List (Nat × Nat)
deriving DecidableEq, Repr

/-- `impl Default for State`: no current input, all hard-power flags 0. -/
def State.default : State :=
  { current_input := none, hard_power_state := get_power_state }

/-- `tiny_http::Response` as observed by a client: status code and body. -/
structure HttpResponse where
  status : Nat
  body : String
deriving DecidableEq, Repr

/-- `str::to_lowercase`, restricted to the ASCII range (the only letters
appearing in the action strings the code compares against). -/
def to_lowercase (s : String) : String :=
  ⟨s.data.map Char.toLower⟩

/-- `u8::from_str`: optional leading plus sign, then one or more ASCII
digits, value at most 255 (overflow is a parse error). -/
def parse_u8 (s : String) : Option Nat :=
  let cs := s.data
  let ds := match cs with
    | '+' :: rest => rest
    | _ => cs
  if ds.isEmpty then none
  else if ds.all (fun c => c.isDigit) then
    let n := ds.foldl (fun acc c => acc * 10 + (c.toNat - 48)) 0
    if n ≤ 255 then some n else none
  else none

/-- `parse_id`: accept exactly the strings that parse as a `u8` contained in
`VALID_IDS`; every other string is rejected (HTTP 400, see
`invalid_id_response`). -/
def parse_id (s : String) : Option Nat :=
  match parse_u8 s with
  | some id => if id ∈ VALID_IDS then some id else none
  | none => none

/-- The 400 response `parse_id` produces on rejection. -/
def invalid_id_response : HttpResponse :=
  { status := 400, body := "ID must be integer 1-4" }

/-- The StateStore: the `Mutex<State>` contents plus the persisted file at
`storage_path` (decoded contents; `none` = file absent) and whether
`create_dir_all` has been invoked for its parent. -/
structure StateManager where
  state : State
  file : Option State
  parentDirEnsured : Bool
deriving DecidableEq, Repr

/-- `StateManager::save_state`: serialize the whole in-memory state under
the lock and rewrite the file (fresh each time), creating parent
directories.  In the source a failed `fs::write` here is surfaced to the
caller as an error while the in-memory mutation is retained (the
`PersistenceError` behaviour); disk writes are modelled as succeeding,
which is sound for the properties proved below: every statement about a
failed request has the failure occur on a pin write, before any state
update, so this path is never reached there. -/
def StateManager.save_state (sm : StateManager) : StateManager :=
  { sm with file := some sm.state, parentDirEnsured := true }

/-- `StateManager::update_current_input`: set `current_input = Some(id)`
under the lock, then persist. -/
def StateManager.update_current_input (sm : StateManager) (id : Nat) :
    StateManager :=
  StateManager.save_state
    { sm with state := { sm.state with current_input := some id } }

/-- `StateManager::update_hard_power_state`: `hard_power_state.insert(id,
value)` under the lock, then persist. -/
def StateManager.update_hard_power_state (sm : StateManager) (id v : Nat) :
    StateManager :=
  StateManager.save_state
    { sm with state :=
        { sm.state with
          hard_power_state := hmInsert sm.state.hard_power_state id v } }

/-- `StateManager::get_state` (`snapshot`): a copy of the in-memory record,
without touching disk. -/
def StateManager.get_state (sm : StateManager) : State :=
  sm.state

/-- `StateManager::clear_and_regenerate_state`. -/
def StateManager.clear_and_regenerate_state (sm : StateManager) :
    StateManager :=
  StateManager.save_state
    { sm with state :=
        { current_input := none, hard_power_state := get_power_state } }

/-- `StateManager::load_state` acts on the file system only; the file holds
a decoded `State` (`serde_json` round-trip is the identity in this model).
If the file exists it is read back; otherwise the default record is built,
parent directories are created, and the record is written out. -/
structure FileSystem where
  file : Option State
  parentDirEnsured : Bool
deriving DecidableEq, Repr

def load_state (fs : FileSystem) : State × FileSystem :=
  match fs.file with
  | some s => (s, fs)
  | none =>
      (State.default,
       { file := some State.default, parentDirEnsured := true })

/-- Observable effects of one request, in program order.  A `write` event is
one attempted `set_high`/`set_low` bus call (`high = true` for `set_high`);
`sleep` is `thread::sleep` with the delay in milliseconds; the two `record`
events are the StateStore mutation calls. -/
inductive Event where
  | write (pin : Nat) (high : Bool)
  | sleep (ms : Nat)
  | recordInput (id : Nat)
  | recordHardPower (id : Nat) (value : Nat)
deriving DecidableEq, Repr

/-- Result of running one handler: the HTTP response, the effect trace, and
the StateStore afterwards. -/
structure RunResult where
  resp : HttpResponse
  trace : List Event
  sm : StateManager
deriving DecidableEq, Repr

/-- Outcome of the next attempted bus write under the oracle `dev`. -/
def devOk (dev : List Bool) : Bool := dev.headD true

/-- `handle_input` (`control.rs` lines 197–414): parse the id, look up the
input pin config, **update the state first** (source comment), then check
`pin > 7`, then write `pushed_state`, sleep `button_press_delay_ms`, and
write the inverse level. -/
def handle_input (sm : StateManager) (id_str : String)
    (input_config : Nat → Option InputPinConfig)
    (button_press_delay_ms : Nat) (dev : List Bool) : RunResult :=
  match parse_id id_str with
  | none => ⟨invalid_id_response, [], sm⟩
  | some id =>
    match input_config id with
    | none =>
        ⟨{ status := 400,
           body := "Input ID " ++ toString id ++ " not configured" }, [], sm⟩
    | some pc =>
      let sm := sm.update_current_input id
      let tr := [Event.recordInput id]
      if pc.pin > 7 then
        ⟨{ status := 500,
           body := "Invalid pin number: " ++ toString pc.pin }, tr, sm⟩
      else
        let level := pc.pushed_state == 1
        let tr := tr ++ [Event.write pc.pin level]
        if devOk dev = false then
          ⟨{ status := 500, body := "Internal server error" }, tr, sm⟩
        else
          let tr := tr ++ [Event.sleep button_press_delay_ms,
                           Event.write pc.pin (!level)]
          if devOk dev.tail = false then
            ⟨{ status := 500, body := "Internal server error" }, tr, sm⟩
          else
            ⟨{ status := 200,
               body := "Input " ++ toString id ++ " selected" }, tr, sm⟩

/-- `handle_power_soft` (`control.rs` lines 441–457): validate the id, then
a stub — no physical write, no StateStore update. -/
def handle_power_soft (sm : StateManager) (id_str action : String) :
    RunResult :=
  match parse_id id_str with
  | none => ⟨invalid_id_response, [], sm⟩
  | some id =>
      ⟨{ status := 200,
         body := "Soft power action " ++ action ++ " triggered for " ++
                 toString id ++ " (stubbed)" }, [], sm⟩

/-- `handle_power_hard` (`control.rs` lines 459–874): lowercase and validate
the action, parse the id, look up the hard-power pin config, reject
`pin > 7`, then per action: `off` writes the inverse of `on_state` and
records 0; `on` writes the `on_state` level and records 1; `toggle` writes
the inverse, sleeps `hard_power_delay_ms`, writes the `on_state` level, and
records 1.  Every state update happens after the writes. -/
def handle_power_hard (sm : StateManager) (id_str action : String)
    (power_hard_config : Nat → Option HardPowerPinConfig)
    (hard_power_delay_ms : Nat) (dev : List Bool) : RunResult :=
  let action_lower := to_lowercase action
  if ¬(action_lower = "on" ∨ action_lower = "off" ∨
       action_lower = "toggle") then
    ⟨{ status := 400, body := "Action must be on, off, or toggle" }, [], sm⟩
  else
    match parse_id id_str with
    | none => ⟨invalid_id_response, [], sm⟩
    | some id =>
      match power_hard_config id with
      | none =>
          ⟨{ status := 400,
             body := "Power ID " ++ toString id ++ " not configured" },
           [], sm⟩
      | some pc =>
        if pc.pin > 7 then
          ⟨{ status := 500,
             body := "Invalid pin number: " ++ toString pc.pin }, [], sm⟩
        else if action_lower = "off" then
          let target := !(pc.on_state == 1)
          let tr := [Event.write pc.pin target]
          if devOk dev = false then
            ⟨{ status := 500, body := "Internal server error" }, tr, sm⟩
          else
            ⟨{ status := 200,
               body := "Power hard off triggered for " ++ toString id },
             tr ++ [Event.recordHardPower id 0],
             sm.update_hard_power_state id 0⟩
        else if action_lower = "on" then
          let target := pc.on_state == 1
          let tr := [Event.write pc.pin target]
          if devOk dev = false then
            ⟨{ status := 500, body := "Internal server error" }, tr, sm⟩
          else
            ⟨{ status := 200,
               body := "Power hard on triggered for " ++ toString id },
             tr ++ [Event.recordHardPower id 1],
             sm.update_hard_power_state id 1⟩
        else
          let off_state := !(pc.on_state == 1)
          let tr := [Event.write pc.pin off_state]
          if devOk dev = false then
            ⟨{ status := 500, body := "Internal server error" }, tr, sm⟩
          else
            let tr := tr ++ [Event.sleep hard_power_delay_ms,
                             Event.write pc.pin (pc.on_state == 1)]
            if devOk dev.tail = false then
              ⟨{ status := 500, body := "Internal server error" }, tr, sm⟩
            else
              ⟨{ status := 200,
                 body := "Power hard toggle triggered for " ++ toString id },
               tr ++ [Event.recordHardPower id 1],
               sm.update_hard_power_state id 1⟩

/-- `handle_power` (`control.rs` lines 416–439): dispatch on the kind. -/
def handle_power (sm : StateManager) (kind id_str action : String)
    (power_hard_config : Nat → Option HardPowerPinConfig)
    (hard_power_delay_ms : Nat) (dev : List Bool) : RunResult :=
  if kind = "soft" then handle_power_soft sm id_str action
  else if kind = "hard" then
    handle_power_hard sm id_str action power_hard_config
      hard_power_delay_ms dev
  else
    ⟨{ status := 400, body := "Invalid power kind: " ++ kind }, [], sm⟩

/-!
## Concurrency model for the StateStore (claim C3)

Each StateStore mutation in the source is two separate critical sections:
the in-memory mutation holds the `Mutex` and then explicitly drops it
(`drop(state); // Release lock before file I/O`), after which `save_state`
re-acquires the lock, serializes the whole state, and writes the file while
holding it.  We model each lock-protected critical section as one atomic
step and consider all interleavings of two concurrent mutations.
-/

/-- One lock-protected critical section of a StateStore operation. -/
inductive MutStep where
  | setInput (id : Nat)
  | setHard (id v : Nat)
  | persist
deriving DecidableEq, Repr

/-- The shared data: the in-memory record and the persisted file. -/
structure Shared where
  mem : State
  file : Option State
deriving DecidableEq, Repr

/-- Effect of one critical section on the shared data. `persist` writes the
serialization of the complete in-memory state read under the lock. -/
def execStep (s : Shared) : MutStep → Shared
  | MutStep.setInput id =>
      { s with mem := { s.mem with current_input := some id } }
  | MutStep.setHard id v =>
      { s with mem :=
          { s.mem with
            hard_power_state := hmInsert s.mem.hard_power_state id v } }
  | MutStep.persist => { s with file := some s.mem }

/-- `update_current_input` as a sequence of critical sections. -/
def update_current_input_prog (id : Nat) : List MutStep :=
  [MutStep.setInput id, MutStep.persist]

/-- `update_hard_power_state` as a sequence of critical sections. -/
def update_hard_power_state_prog (id v : Nat) : List MutStep :=
  [MutStep.setHard id v, MutStep.persist]

/-- Fuel-indexed worker for `interleavings` (structural recursion on the
fuel, so that concrete instances reduce in the kernel). -/
def interleavingsFuel :
    Nat → List MutStep → List MutStep → List (List (Bool × MutStep))
  | _, [], bs => [bs.map (fun b => (false, b))]
  | _, a :: as, [] => [(a :: as).map (fun a => (true, a))]
  | 0, _ :: _, _ :: _ => []
  | n + 1, a :: as, b :: bs =>
      (interleavingsFuel n as (b :: bs)).map (fun t => (true, a) :: t) ++
      (interleavingsFuel n (a :: as) bs).map (fun t => (false, b) :: t)

/-- All interleavings of two threads' step sequences; each step is tagged
with the thread that took it (`true` = thread A). -/
def interleavings (as bs : List MutStep) : List (List (Bool × MutStep)) :=
  interleavingsFuel (as.length + bs.length) as bs

/-- Run a tagged interleaving from a shared start state. -/
def execTrace (s : Shared) (tr : List (Bool × MutStep)) : Shared :=
  tr.foldl (fun st p => execStep st p.2) s

/-- A thread's steps are contiguous in the interleaving (no step of the
other thread falls between them) — what one exclusion domain spanning the
full read-modify-persist cycle would force. -/
def contiguous (tr : List (Bool × MutStep)) (who : Bool) : Bool :=
  let idxs := (tr.enum.filter (fun p => p.2.1 = who)).map (fun p => p.1)
  match idxs with
  | [] => true
  | i :: _ => idxs = List.range' i idxs.length

/-- The in-memory state after every prefix of an interleaving — the set of
coherent state values the memory actually held. -/
def reachableMems (s : Shared) (tr : List (Bool × MutStep)) : List State :=
  (List.range (tr.length + 1)).map (fun n => (execTrace s (tr.take n)).mem)

/-- After every prefix of the interleaving, the persisted file (when
present) holds the complete serialization of one coherent state value: a
state the memory actually held at some point. -/
def coherentFiles (s : Shared) (tr : List (Bool × MutStep)) : Bool :=
  (List.range (tr.length + 1)).all (fun n =>
    match (execTrace s (tr.take n)).file with
    | some m => m ∈ reachableMems s tr
    | none => true)

/-!
## Concrete fixtures shared by the claim proofs
-/

/-- The StateStore right after a fresh `load_or_init`. -/
def sm_default : StateManager :=
  { state := State.default, file := some State.default,
    parentDirEnsured := true }

/-- An input config mapping id 1 to pin 3 with `pushed_state = 1`. -/
def input_cfg_ex : Nat → Option InputPinConfig :=
  fun id => if id = 1 then some ⟨3, 1⟩ else none

/-- An input config whose mapped physical pin (8) is out of range. -/
def input_cfg_badpin : Nat → Option InputPinConfig :=
  fun id => if id = 1 then some ⟨8, 1⟩ else none

/-- A hard-power config mapping id 2 to pin 5 with `on_state = 1`. -/
def hard_cfg_ex : Nat → Option HardPowerPinConfig :=
  fun id => if id = 2 then some ⟨5, 1⟩ else none

/-- A hard-power config whose mapped physical pin (9) is out of range. -/
def hard_cfg_badpin : Nat → Option HardPowerPinConfig :=
  fun id => if id = 2 then some ⟨9, 1⟩ else none

/-- The shared StateStore data right after a fresh start. -/
def shared0 : Shared :=
  { mem := State.default, file := some State.default }

/-- Is an event a physical pin write? -/
def isWrite : Event → Bool
  | Event.write _ _ => true
  | _ => false

/-- Is an event a `record_input` (`update_current_input`) call? -/
def isRecordInput : Event → Bool
  | Event.recordInput _ => true
  | _ => false

/-- Every physical write precedes every `record_input` event in the trace:
no write occurs at or after the first `record_input`. -/
def writes_before_record (tr : List Event) : Bool :=
  !((tr.dropWhile (fun e => !(isRecordInput e))).any isWrite)

/-!
## Helper lemmas about the HashMap model
-/

/-- Replacing the value stored at key `k` in place leaves `find?` at any
other key `j` unchanged. -/
theorem find?_map_replace (k v j : Nat) (h : j ≠ k) :
    ∀ m : List (Nat × Nat),
      List.find? (fun p => decide (p.1 = j))
          (m.map (fun p => if p.1 = k then (k, v) else p)) =
        List.find? (fun p => decide (p.1 = j)) m := by
  intro m
  induction m with
  | nil => rfl
  | cons p rest ih =>
      simp only [List.map_cons]
      by_cases hpk : p.1 = k
      · have hpj : ¬(p.1 = j) := fun hj => h (hj ▸ hpk)
        rw [if_pos hpk]
        rw [List.find?_cons_of_neg _ (by simpa using Ne.symm h),
            List.find?_cons_of_neg _ (by simpa using hpj)]
        exact ih
      · rw [if_neg hpk]
        by_cases hpj : p.1 = j
        · rw [List.find?_cons_of_pos _ (by simpa using hpj),
              List.find?_cons_of_pos _ (by simpa using hpj)]
        · rw [List.find?_cons_of_neg _ (by simpa using hpj),
              List.find?_cons_of_neg _ (by simpa using hpj)]
          exact ih

/-- `HashMap::insert` is invisible to `HashMap::get` at every other key. -/
theorem hmGet_hmInsert_ne (m : List (Nat × Nat)) (k v j : Nat) (h : j ≠ k) :
    hmGet (hmInsert m k v) j = hmGet m j := by
  unfold hmInsert hmGet
  split
  · rw [find?_map_replace k v j h m]
  · rw [List.find?_append]
    have hone : List.find? (fun p => decide (p.1 = j)) [(k, v)] = none := by
      simp [Ne.symm h]
    rw [hone, Option.or_none]

/-!
## Claim C1 — state is committed only after all physical writes
-/

/-- C1 counterexample: on input selection with a failing first pin write
(the device oracle returns an error), the request fails with 500 after the
attempted write, yet both the in-memory record and the persisted file have
already been changed — the StateStore is *not* left unchanged from before
the call, because `handle_input` updates the state before writing pins. -/
theorem c1_counterexample :
    (handle_input sm_default "1" input_cfg_ex 50 [false]).resp.status = 500
    ∧ (handle_input sm_default "1" input_cfg_ex 50 [false]).trace =
        [Event.recordInput 1, Event.write 3 true]
    ∧ (handle_input sm_default "1" input_cfg_ex 50 [false]).sm.state ≠
        sm_default.state
    ∧ (handle_input sm_default "1" input_cfg_ex 50 [false]).sm.file ≠
        sm_default.file := by
  decide

/-- C1 (amended): for hard-power actuation, if any physical pin write
fails the StateStore — memory and file — is left unchanged from before the
call (a failed first write aborts every action, a failed second write
aborts a toggle, each before the state update); input selection instead
updates the StateStore *before* attempting any pin write, so whenever the
id parses and is configured the store ends up updated regardless of write
outcomes and a write failure does not roll it back. -/
theorem c1_amended_state_update_discipline :
    (∀ (sm : StateManager) (id_str action : String)
       (cfg : Nat → Option HardPowerPinConfig) (d : Nat) (dev : List Bool),
       devOk dev = false →
       (handle_power_hard sm id_str action cfg d dev).sm = sm)
    ∧ (∀ (sm : StateManager) (id_str : String)
        (cfg : Nat → Option HardPowerPinConfig) (d : Nat) (dev : List Bool),
        devOk dev.tail = false →
        (handle_power_hard sm id_str "toggle" cfg d dev).sm = sm)
    ∧ (∀ (sm : StateManager) (id_str : String) (id : Nat)
        (pc : InputPinConfig) (cfg : Nat → Option InputPinConfig)
        (d : Nat) (dev : List Bool),
        parse_id id_str = some id → cfg id = some pc →
        (handle_input sm id_str cfg d dev).sm = sm.update_current_input id) := by
  refine ⟨?_, ?_, ?_⟩
  · intro sm id_str action cfg d dev h
    unfold handle_power_hard
    dsimp only
    repeat' split
    all_goals rfl
  · intro sm id_str cfg d dev h
    unfold handle_power_hard
    dsimp only
    rw [show to_lowercase "toggle" = "toggle" from by decide]
    rw [if_neg (by decide)]
    cases hid : parse_id id_str with
    | none => rfl
    | some id =>
        cases hcfg : cfg id with
        | none => simp only [hcfg]
        | some pc =>
            simp only [hcfg]
            by_cases hpin : pc.pin > 7
            · rw [if_pos hpin]
            · rw [if_neg hpin]
              rw [if_neg (by decide), if_neg (by decide)]
              by_cases h1 : devOk dev = false
              · rw [if_pos h1]
              · rw [if_neg h1, h]
                simp
  · intro sm id_str id pc cfg d dev hid hcfg
    unfold handle_input
    simp only [hid, hcfg]
    repeat' split
    all_goals rfl

/-- C1 witness: the amended theorem applied to a hard-power `on` request
whose single pin write fails, a hard-power `toggle` whose second pin write
fails (store untouched in both), and a failing input selection (store
already updated). -/
theorem c1_witness :
    (devOk [false] = false
     ∧ (handle_power_hard sm_default "2" "on" hard_cfg_ex 50 [false]).sm =
         sm_default)
    ∧ (devOk ([true, false] : List Bool).tail = false
       ∧ (handle_power_hard sm_default "2" "toggle" hard_cfg_ex 50
            [true, false]).sm = sm_default)
    ∧ (parse_id "1" = some 1 ∧ input_cfg_ex 1 = some ⟨3, 1⟩
       ∧ (handle_input sm_default "1" input_cfg_ex 50 [false]).sm =
           sm_default.update_current_input 1) :=
  ⟨⟨by decide,
    c1_amended_state_update_discipline.1 sm_default "2" "on" hard_cfg_ex 50
      [false] (by decide)⟩,
   ⟨by decide,
    c1_amended_state_update_discipline.2.1 sm_default "2" hard_cfg_ex 50
      [true, false] (by decide)⟩,
   by decide, by decide,
   c1_amended_state_update_discipline.2.2 sm_default "1" 1 ⟨3, 1⟩
     input_cfg_ex 50 [false] (by decide) (by decide)⟩

/-!
## Claim C2 — input-selection pulse shape and ordering
-/

/-- C2 counterexample: a successful input selection on a valid, configured
id produces the trace record-then-write-sleep-write, so the claim that both
physical writes occur *before* the `record_input` call is false — the
`record_input` call comes first. -/
theorem c2_counterexample :
    (handle_input sm_default "1" input_cfg_ex 50 []).resp.status = 200
    ∧ (handle_input sm_default "1" input_cfg_ex 50 []).trace =
        [Event.recordInput 1, Event.write 3 true, Event.sleep 50,
         Event.write 3 false]
    ∧ writes_before_record
        (handle_input sm_default "1" input_cfg_ex 50 []).trace = false := by
  decide

/-- C2 (amended): for every valid, configured id with an in-range pin and
succeeding writes, input selection performs exactly two physical writes —
first the configured `pushed_state` level, then its inverse — separated by
the `button_press_delay_ms` sleep, and exactly one `record_input`
(`update_current_input`) call; the `record_input` call occurs *before* the
two physical writes, not after them. -/
theorem c2_amended_input_pulse_trace :
    ∀ (sm : StateManager) (id_str : String) (id : Nat) (pc : InputPinConfig)
      (cfg : Nat → Option InputPinConfig) (d : Nat) (dev : List Bool),
      parse_id id_str = some id → cfg id = some pc → pc.pin ≤ 7 →
      devOk dev = true → devOk dev.tail = true →
      handle_input sm id_str cfg d dev =
        ⟨⟨200, "Input " ++ toString id ++ " selected"⟩,
         [Event.recordInput id, Event.write pc.pin (pc.pushed_state == 1),
          Event.sleep d, Event.write pc.pin (!(pc.pushed_state == 1))],
         sm.update_current_input id⟩ := by
  intro sm id_str id pc cfg d dev hid hcfg hpin h1 h2
  have hp : ¬ pc.pin > 7 := by omega
  unfold handle_input
  simp only [hid, hcfg, hp, h1, h2, if_false, if_true]
  simp

/-- C2 witness: the amended theorem applied to a concrete successful input
selection of id 1 on pin 3. -/
theorem c2_witness :
    (parse_id "1" = some 1 ∧ input_cfg_ex 1 = some ⟨3, 1⟩
     ∧ (3 : Nat) ≤ 7 ∧ devOk [] = true ∧ devOk ([] : List Bool).tail = true)
    ∧ handle_input sm_default "1" input_cfg_ex 50 [] =
        ⟨⟨200, "Input " ++ toString 1 ++ " selected"⟩,
         [Event.recordInput 1, Event.write 3 true, Event.sleep 50,
          Event.write 3 false],
         sm_default.update_current_input 1⟩ :=
  ⟨⟨by decide, by decide, by decide, by decide, by decide⟩,
   c2_amended_input_pulse_trace sm_default "1" 1 ⟨3, 1⟩ input_cfg_ex 50 []
     (by decide) (by decide) (by decide) (by decide) (by decide)⟩

/-!
## Claim C3 — StateStore exclusion domain
-/

/-- C3 counterexample: the interleaving in which thread B runs its whole
`update_hard_power_state(2, 1)` memory mutation between thread A's
`update_current_input(1)` memory mutation and A's persistence is a valid
execution (the source drops the lock before `save_state` re-acquires it), A's
steps are not contiguous, and A's own persist already writes a file
containing B's mutation — so no single exclusion domain spans the full
read-modify-persist cycle of one mutation. -/
theorem c3_counterexample :
    [(true, MutStep.setInput 1), (false, MutStep.setHard 2 1),
     (true, MutStep.persist), (false, MutStep.persist)] ∈
      interleavings (update_current_input_prog 1)
        (update_hard_power_state_prog 2 1)
    ∧ contiguous
        [(true, MutStep.setInput 1), (false, MutStep.setHard 2 1),
         (true, MutStep.persist), (false, MutStep.persist)] true = false
    ∧ (execTrace shared0
        ([(true, MutStep.setInput 1), (false, MutStep.setHard 2 1),
          (true, MutStep.persist), (false, MutStep.persist)].take 3)).file =
        some { current_input := some 1,
               hard_power_state :=
                 hmInsert State.default.hard_power_state 2 1 } := by
  decide

/-- C3 (amended): each lock-protected critical section (one in-memory
mutation, or one serialize-and-write of the file under the lock) is atomic,
so in every interleaving of two concurrent mutations the final memory and
file hold both updates and every persisted file content is the complete
serialization of one coherent state value the memory actually held; but the
lock is released between a mutation and its persistence, so the exclusion
domain does not span the full read-modify-persist cycle — an interleaving
exists in which the other mutation intervenes. -/
theorem c3_amended_statestore_exclusion :
    ((interleavings (update_current_input_prog 1)
        (update_hard_power_state_prog 2 1)).all (fun tr =>
      execTrace shared0 tr =
        { mem := { current_input := some 1,
                   hard_power_state :=
                     hmInsert State.default.hard_power_state 2 1 },
          file := some { current_input := some 1,
                         hard_power_state :=
                           hmInsert State.default.hard_power_state 2 1 } }))
      = true
    ∧ ((interleavings (update_current_input_prog 1)
        (update_hard_power_state_prog 2 1)).all (fun tr =>
      coherentFiles shared0 tr)) = true
    ∧ ∃ tr ∈ interleavings (update_current_input_prog 1)
        (update_hard_power_state_prog 2 1), contiguous tr true = false := by
  decide

/-!
## Claim C4 — out-of-range configured pin
-/

/-- C4 counterexample: with id 1 mapped to physical pin 8, input selection
is rejected with 500 and no write event, but the StateStore *is* mutated —
`update_current_input` has already run before the pin check. -/
theorem c4_counterexample :
    (handle_input sm_default "1" input_cfg_badpin 50 []).resp.status = 500
    ∧ ((handle_input sm_default "1" input_cfg_badpin 50 []).trace.any
        isWrite) = false
    ∧ (handle_input sm_default "1" input_cfg_badpin 50 []).sm ≠
        sm_default := by
  decide

/-- C4 (amended): a configured physical pin greater than 7 is rejected with
an internal error (500) before any bus I/O — the trace holds no write
event; for hard power the StateStore is left unchanged, but for input
selection the current-input record has already been updated before the pin
check, so that request is not free of side effects. -/
theorem c4_amended_invalid_pin_rejection :
    (∀ (sm : StateManager) (id_str : String) (id : Nat)
       (pc : InputPinConfig) (cfg : Nat → Option InputPinConfig)
       (d : Nat) (dev : List Bool),
       parse_id id_str = some id → cfg id = some pc → pc.pin > 7 →
       handle_input sm id_str cfg d dev =
         ⟨⟨500, "Invalid pin number: " ++ toString pc.pin⟩,
          [Event.recordInput id], sm.update_current_input id⟩)
    ∧ (∀ (sm : StateManager) (id_str action : String) (id : Nat)
        (pc : HardPowerPinConfig) (cfg : Nat → Option HardPowerPinConfig)
        (d : Nat) (dev : List Bool),
        (to_lowercase action = "on" ∨ to_lowercase action = "off" ∨
          to_lowercase action = "toggle") →
        parse_id id_str = some id → cfg id = some pc → pc.pin > 7 →
        handle_power_hard sm id_str action cfg d dev =
          ⟨⟨500, "Invalid pin number: " ++ toString pc.pin⟩, [], sm⟩) := by
  constructor
  · intro sm id_str id pc cfg d dev hid hcfg hpin
    unfold handle_input
    simp only [hid, hcfg, hpin, if_true]
  · intro sm id_str action id pc cfg d dev hact hid hcfg hpin
    unfold handle_power_hard
    dsimp only
    rw [if_neg (not_not_intro hact)]
    simp only [hid, hcfg]
    rw [if_pos hpin]

/-- C4 witness: the amended theorem applied to id 1 on (out-of-range) pin 8
for input selection and id 2 on pin 9 for hard power. -/
theorem c4_witness :
    (parse_id "1" = some 1 ∧ input_cfg_badpin 1 = some ⟨8, 1⟩ ∧ (8 : Nat) > 7
     ∧ handle_input sm_default "1" input_cfg_badpin 50 [] =
         ⟨⟨500, "Invalid pin number: " ++ toString (8 : Nat)⟩,
          [Event.recordInput 1], sm_default.update_current_input 1⟩)
    ∧ (to_lowercase "on" = "on" ∧ parse_id "2" = some 2
       ∧ hard_cfg_badpin 2 = some ⟨9, 1⟩ ∧ (9 : Nat) > 7
       ∧ handle_power_hard sm_default "2" "on" hard_cfg_badpin 50 [] =
           ⟨⟨500, "Invalid pin number: " ++ toString (9 : Nat)⟩, [],
            sm_default⟩) :=
  ⟨⟨by decide, by decide, by decide,
    c4_amended_invalid_pin_rejection.1 sm_default "1" 1 ⟨8, 1⟩
      input_cfg_badpin 50 [] (by decide) (by decide) (by decide)⟩,
   by decide, by decide, by decide, by decide,
   c4_amended_invalid_pin_rejection.2 sm_default "2" "on" 2 ⟨9, 1⟩
     hard_cfg_badpin 50 [] (Or.inl (by decide)) (by decide) (by decide)
     (by decide)⟩

/-!
## Claim C5 — invalid ids are rejected everywhere with no side effects
-/

/-- C5: for every id string that does not parse to a member of {1,2,3,4},
each entry point — input selection, soft power, and hard power (given a
well-formed action, since the action is validated first) — returns the 400
invalid-id response, performs zero physical writes (empty trace) and leaves
the StateStore untouched. -/
theorem c5_invalid_id_rejection :
    ∀ (sm : StateManager) (id_str : String),
      (∀ n, n ∈ VALID_IDS → parse_u8 id_str ≠ some n) →
      ∀ (cfgI : Nat → Option InputPinConfig)
        (cfgH : Nat → Option HardPowerPinConfig)
        (d dH : Nat) (dev : List Bool) (action : String),
        handle_input sm id_str cfgI d dev = ⟨invalid_id_response, [], sm⟩ ∧
        handle_power_soft sm id_str action = ⟨invalid_id_response, [], sm⟩ ∧
        ((to_lowercase action = "on" ∨ to_lowercase action = "off" ∨
           to_lowercase action = "toggle") →
          handle_power_hard sm id_str action cfgH dH dev =
            ⟨invalid_id_response, [], sm⟩) := by
  intro sm id_str h cfgI cfgH d dH dev action
  have hnone : parse_id id_str = none := by
    unfold parse_id
    cases hp : parse_u8 id_str with
    | none => rfl
    | some n =>
        have hn : n ∉ VALID_IDS := fun hmem => h n hmem hp
        simp [hn]
  refine ⟨?_, ?_, ?_⟩
  · unfold handle_input
    rw [hnone]
  · unfold handle_power_soft
    rw [hnone]
  · intro hact
    unfold handle_power_hard
    dsimp only
    rw [if_neg (not_not_intro hact)]
    rw [hnone]

/-- C5 witness: the theorem applied to the out-of-range id string `"5"`. -/
theorem c5_witness :
    parse_id "5" = none
    ∧ handle_input sm_default "5" input_cfg_ex 50 [] =
        ⟨invalid_id_response, [], sm_default⟩
    ∧ handle_power_soft sm_default "5" "on" =
        ⟨invalid_id_response, [], sm_default⟩
    ∧ handle_power_hard sm_default "5" "on" hard_cfg_ex 50 [] =
        ⟨invalid_id_response, [], sm_default⟩ := by
  have happ := c5_invalid_id_rejection sm_default "5" (by decide)
    input_cfg_ex hard_cfg_ex 50 50 [] "on"
  exact ⟨by decide, happ.1, happ.2.1, happ.2.2 (Or.inl (by decide))⟩

/-!
## Claim C6 — hard-power on/off pulse shape
-/

/-- C6: on a valid, configured id with an in-range pin and a succeeding
write, hard-power `on` performs exactly one physical write of the
configured `on_state` level followed by exactly one `record_hard_power`
call with value 1, and `off` performs exactly one write of the inverse
level followed by one `record_hard_power` call with value 0; in both cases
the write precedes the record call. -/
theorem c6_hard_power_on_off_trace :
    ∀ (sm : StateManager) (id_str : String) (id : Nat)
      (pc : HardPowerPinConfig) (cfg : Nat → Option HardPowerPinConfig)
      (d : Nat) (dev : List Bool),
      parse_id id_str = some id → cfg id = some pc → pc.pin ≤ 7 →
      devOk dev = true →
      handle_power_hard sm id_str "on" cfg d dev =
        ⟨⟨200, "Power hard on triggered for " ++ toString id⟩,
         [Event.write pc.pin (pc.on_state == 1), Event.recordHardPower id 1],
         sm.update_hard_power_state id 1⟩ ∧
      handle_power_hard sm id_str "off" cfg d dev =
        ⟨⟨200, "Power hard off triggered for " ++ toString id⟩,
         [Event.write pc.pin (!(pc.on_state == 1)),
          Event.recordHardPower id 0],
         sm.update_hard_power_state id 0⟩ := by
  intro sm id_str id pc cfg d dev hid hcfg hpin hdev
  have hp : ¬ pc.pin > 7 := by omega
  constructor
  · unfold handle_power_hard
    dsimp only
    rw [show to_lowercase "on" = "on" from by decide]
    rw [if_neg (by decide)]
    simp only [hid, hcfg]
    rw [if_neg hp]
    rw [if_neg (by decide)]
    rw [if_pos (by decide)]
    rw [hdev]
    simp
  · unfold handle_power_hard
    dsimp only
    rw [show to_lowercase "off" = "off" from by decide]
    rw [if_neg (by decide)]
    simp only [hid, hcfg]
    rw [if_neg hp]
    rw [if_pos (by decide)]
    rw [hdev]
    simp

/-- C6 witness: the theorem applied to id 2 on pin 5 with `on_state = 1`. -/
theorem c6_witness :
    (parse_id "2" = some 2 ∧ hard_cfg_ex 2 = some ⟨5, 1⟩ ∧ (5 : Nat) ≤ 7
     ∧ devOk [] = true)
    ∧ handle_power_hard sm_default "2" "on" hard_cfg_ex 50 [] =
        ⟨⟨200, "Power hard on triggered for " ++ toString 2⟩,
         [Event.write 5 true, Event.recordHardPower 2 1],
         sm_default.update_hard_power_state 2 1⟩
    ∧ handle_power_hard sm_default "2" "off" hard_cfg_ex 50 [] =
        ⟨⟨200, "Power hard off triggered for " ++ toString 2⟩,
         [Event.write 5 false, Event.recordHardPower 2 0],
         sm_default.update_hard_power_state 2 0⟩ := by
  have happ := c6_hard_power_on_off_trace sm_default "2" 2 ⟨5, 1⟩ hard_cfg_ex
    50 [] (by decide) (by decide) (by decide) (by decide)
  exact ⟨⟨by decide, by decide, by decide, by decide⟩, happ.1, happ.2⟩

/-!
## Claim C7 — hard-power toggle pulse shape
-/

/-- C7: on a valid, configured id with an in-range pin and succeeding
writes, hard-power `toggle` performs exactly two physical writes — first
the inverse of the configured `on_state` level, then the `on_state` level —
separated by the `hard_power_delay_ms` sleep, and ends with exactly one
`record_hard_power` call with value 1. -/
theorem c7_hard_power_toggle_trace :
    ∀ (sm : StateManager) (id_str : String) (id : Nat)
      (pc : HardPowerPinConfig) (cfg : Nat → Option HardPowerPinConfig)
      (d : Nat) (dev : List Bool),
      parse_id id_str = some id → cfg id = some pc → pc.pin ≤ 7 →
      devOk dev = true → devOk dev.tail = true →
      handle_power_hard sm id_str "toggle" cfg d dev =
        ⟨⟨200, "Power hard toggle triggered for " ++ toString id⟩,
         [Event.write pc.pin (!(pc.on_state == 1)), Event.sleep d,
          Event.write pc.pin (pc.on_state == 1), Event.recordHardPower id 1],
         sm.update_hard_power_state id 1⟩ := by
  intro sm id_str id pc cfg d dev hid hcfg hpin h1 h2
  have hp : ¬ pc.pin > 7 := by omega
  unfold handle_power_hard
  dsimp only
  rw [show to_lowercase "toggle" = "toggle" from by decide]
  rw [if_neg (by decide)]
  simp only [hid, hcfg]
  rw [if_neg hp]
  rw [if_neg (by decide)]
  rw [if_neg (by decide)]
  rw [h1, h2]
  simp

/-- C7 witness: the theorem applied to id 2 on pin 5 with `on_state = 1`
and delay 50. -/
theorem c7_witness :
    (parse_id "2" = some 2 ∧ hard_cfg_ex 2 = some ⟨5, 1⟩ ∧ (5 : Nat) ≤ 7
     ∧ devOk [] = true ∧ devOk ([] : List Bool).tail = true)
    ∧ handle_power_hard sm_default "2" "toggle" hard_cfg_ex 50 [] =
        ⟨⟨200, "Power hard toggle triggered for " ++ toString 2⟩,
         [Event.write 5 false, Event.sleep 50, Event.write 5 true,
          Event.recordHardPower 2 1],
         sm_default.update_hard_power_state 2 1⟩ := by
  have happ := c7_hard_power_toggle_trace sm_default "2" 2 ⟨5, 1⟩ hard_cfg_ex
    50 [] (by decide) (by decide) (by decide) (by decide) (by decide)
  exact ⟨⟨by decide, by decide, by decide, by decide, by decide⟩, happ⟩

/-!
## Claim C8 — load_or_init builds and persists the default record, idempotently
-/

/-- C8: when the state file is absent, `load_state` returns the default
record — no current input, hard-power flag 0 for every id in {1,2,3,4} —
ensures the parent directory exists, and writes the record to disk; a
second call against the freshly created file reads back the identical
default record and changes nothing. -/
theorem c8_load_or_init_idempotent :
    load_state { file := none, parentDirEnsured := false } =
      (State.default,
       { file := some State.default, parentDirEnsured := true })
    ∧ load_state (load_state { file := none, parentDirEnsured := false }).2 =
        ((load_state { file := none, parentDirEnsured := false }).1,
         (load_state { file := none, parentDirEnsured := false }).2)
    ∧ State.default.current_input = none
    ∧ hmGet State.default.hard_power_state 1 = some 0
    ∧ hmGet State.default.hard_power_state 2 = some 0
    ∧ hmGet State.default.hard_power_state 3 = some 0
    ∧ hmGet State.default.hard_power_state 4 = some 0 := by
  decide

/-!
## Claim C9 — record_hard_power only touches its own entry
-/

/-- C9: `update_hard_power_state` changes only the hard-power entry of the
given id — every other id's entry and `current_input` are unchanged — and
concretely, after recording id 2 on then off from the default store, the
snapshot reports entry 2 as 0 while entries 1, 3, 4 and the current input
are unchanged. -/
theorem c9_record_hard_power_frame :
    (∀ (sm : StateManager) (id v j : Nat), j ≠ id →
        hmGet (sm.update_hard_power_state id v).state.hard_power_state j =
          hmGet sm.state.hard_power_state j)
    ∧ (∀ (sm : StateManager) (id v : Nat),
        (sm.update_hard_power_state id v).state.current_input =
          sm.state.current_input)
    ∧ hmGet ((sm_default.update_hard_power_state 2
        1).update_hard_power_state 2 0).get_state.hard_power_state 2 =
        some 0
    ∧ hmGet ((sm_default.update_hard_power_state 2
        1).update_hard_power_state 2 0).get_state.hard_power_state 1 =
        hmGet sm_default.get_state.hard_power_state 1
    ∧ hmGet ((sm_default.update_hard_power_state 2
        1).update_hard_power_state 2 0).get_state.hard_power_state 3 =
        hmGet sm_default.get_state.hard_power_state 3
    ∧ hmGet ((sm_default.update_hard_power_state 2
        1).update_hard_power_state 2 0).get_state.hard_power_state 4 =
        hmGet sm_default.get_state.hard_power_state 4
    ∧ ((sm_default.update_hard_power_state 2
        1).update_hard_power_state 2 0).get_state.current_input =
        sm_default.get_state.current_input := by
  refine ⟨?_, ?_, by decide, by decide, by decide, by decide, by decide⟩
  · intro sm id v j h
    exact hmGet_hmInsert_ne sm.state.hard_power_state id v j h
  · intro sm id v
    rfl

/-- C9 witness: the frame part of the theorem applied to the entry of id 1
after an update of id 2. -/
theorem c9_witness :
    (1 : Nat) ≠ 2
    ∧ hmGet (sm_default.update_hard_power_state 2
        1).state.hard_power_state 1 =
        hmGet sm_default.state.hard_power_state 1 :=
  ⟨by decide, c9_record_hard_power_frame.1 sm_default 2 1 1 (by decide)⟩

/-!
## Claim C10 — hard-power action validation
-/

/-- C10: the hard-power action parameter is matched case-insensitively
(`"ON"`, `"Off"`, `"TOGGLE"` are accepted), and every action string whose
lowercasing is not `on`, `off` or `toggle` is rejected with 400 before the
id is parsed and before any pin-config lookup — the result is a constant
independent of the id string, the configuration and the device, with no
write event and no state mutation. -/
theorem c10_action_case_insensitive :
    (∀ (sm : StateManager) (id_str action : String)
       (cfg : Nat → Option HardPowerPinConfig) (d : Nat) (dev : List Bool),
       ¬(to_lowercase action = "on" ∨ to_lowercase action = "off" ∨
         to_lowercase action = "toggle") →
       handle_power_hard sm id_str action cfg d dev =
         ⟨⟨400, "Action must be on, off, or toggle"⟩, [], sm⟩)
    ∧ (handle_power_hard sm_default "2" "ON" hard_cfg_ex 50 []).resp.status
        = 200
    ∧ (handle_power_hard sm_default "2" "Off" hard_cfg_ex 50 []).resp.status
        = 200
    ∧ (handle_power_hard sm_default "2" "TOGGLE" hard_cfg_ex 50
        []).resp.status = 200 := by
  refine ⟨?_, by decide, by decide, by decide⟩
  intro sm id_str action cfg d dev h
  unfold handle_power_hard
  dsimp only
  rw [if_pos h]

/-- C10 witness: the rejection part of the theorem applied to the invalid
action `"press"` — note the id string `"9"` is itself invalid and the pin
config is empty, yet the action error wins because it is checked first. -/
theorem c10_witness :
    ¬(to_lowercase "press" = "on" ∨ to_lowercase "press" = "off" ∨
      to_lowercase "press" = "toggle")
    ∧ handle_power_hard sm_default "9" "press" (fun _ => none) 50 [] =
        ⟨⟨400, "Action must be on, off, or toggle"⟩, [], sm_default⟩ :=
  ⟨by decide,
   c10_action_case_insensitive.1 sm_default "9" "press" (fun _ => none) 50
     [] (by decide)⟩

end NanoKVM
